import Mathlib

/-!
# Verification of the solarpanel data-logger sketches

Shallow embedding of the two Arduino sketches `SolarFinalVer2.ino` and
`solardatalog.ino` (a solar-panel current logger: startup peripheral
validation, date-derived CSV filename, optional sample averaging, and a
read–format–append loop), together with proofs about the embedded code.

Currents are modelled as rationals (`Rat`); the target's `float`
arithmetic agrees exactly with `Rat` on the small integer inputs used in
the concrete evaluations below.  The rendering of a float by
`Print::print` is abstracted as an opaque string argument where a value
is written out.
-/

namespace Solar

/-- The averaging accumulator of `SolarFinalVer2.ino`:
`float averagedcurrent_mA` (line 26) and `int counter` (line 27).
`counter` only ever holds values `0 .. datapoints`, so `Nat` is faithful. -/
structure AvgState where
  averagedcurrent_mA : Rat
  counter : Nat
deriving DecidableEq, Repr

/-- Function `ReadData` of `SolarFinalVer2.ino` (lines 137–164), as a step on the
averaging state: given one raw sensor sample, return the new state and
the value passed to `StoreData`, if any.  Note the source resets
`counter = 0` after an emission (line 158) but never resets
`averagedcurrent_mA`. -/
def ReadDataStep (averaged : Bool) (datapoints : Nat) (st : AvgState)
    (current_mA : Rat) : AvgState × Option Rat :=
  if averaged then
    let total := st.averagedcurrent_mA + current_mA
    let c := st.counter + 1
    if c = datapoints then
      (⟨total, 0⟩, some (total / datapoints))
    else
      (⟨total, c⟩, none)
  else
    (st, some current_mA)

/-- Run `ReadData` over a list of raw samples, collecting the state and
the values emitted to `StoreData`, in order. -/
def runReadData (averaged : Bool) (datapoints : Nat) (st : AvgState) :
    List Rat → AvgState × List Rat
  | [] => (st, [])
  | c :: cs =>
    let (st1, out) := ReadDataStep averaged datapoints st c
    let (st2, outs) := runReadData averaged datapoints st1 cs
    (st2, (match out with | some v => [v] | none => []) ++ outs)

/-- Initial accumulator: both globals are zero-initialized. -/
def initAvg : AvgState := ⟨0, 0⟩

/-- Arithmetic mean of a list of rationals. -/
def listMean (l : List Rat) : Rat := l.sum / l.length

end Solar

namespace Solar

/-! ## Header writing at setup (`setup`, SolarFinalVer2 lines 93–97 and
solardatalog lines 107–111) -/

/-- Empty file contents. -/
def emptyFile : String := ""

/-- The header row written by `file.println("Time, Current (mA)")`;
`println` terminates the line with CR LF. -/
def headerLine : String := "Time, Current (mA)\r\n"

/-- The header step of `setup`: the file is opened with `FILE_WRITE`
(append mode), the header is printed iff `file.size() == 0`, and the file
is closed.  Returns the new file contents and whether the header was
written. -/
def setupHeader (f : String) : String × Bool :=
  if f.length = 0 then (f ++ headerLine, true) else (f, false)

/-! ## Filename generation (`setup`, SolarFinalVer2 lines 82–90 and
solardatalog lines 96–104) -/

/-- The character `'0' + n` as in the sketch's filename generation. -/
def digitChar (n : Nat) : Char := Char.ofNat ('0'.toNat + n)

/-- The twelve characters of `filename` after `setup` overwrites the
first eight slots of `"YYYYMMDD.csv"` from the RTC date.  Note the first
digit is `'0' + (year / 1000)` with no `% 10`, exactly as in the source. -/
def mkFilenameChars (y m d : Nat) : List Char :=
  [digitChar (y / 1000), digitChar (y / 100 % 10), digitChar (y / 10 % 10),
   digitChar (y % 10),
   digitChar (m / 10 % 10), digitChar (m % 10),
   digitChar (d / 10 % 10), digitChar (d % 10),
   '.', 'c', 's', 'v']

/-- The generated filename as a string. -/
def mkFilename (y m d : Nat) : String := String.mk (mkFilenameChars y m d)

/-- Numeric value of a digit character. -/
def charVal (c : Char) : Nat := c.toNat - '0'.toNat

/-- Decimal value denoted by a list of digit characters. -/
def digitsVal (l : List Char) : Nat := l.foldl (fun a c => 10 * a + charVal c) 0

theorem digitChar_spec (k : Nat) (hk : k ≤ 9) :
    charVal (digitChar k) = k ∧ (digitChar k).isDigit = true := by
  interval_cases k <;> exact ⟨by decide, by decide⟩

end Solar

/-- C1: in averaging mode the code appends one row per N samples, but the
value appended is NOT the mean of the N samples since the previous
emission: `averagedcurrent_mA` is never reset (only `counter` is, line
158 of SolarFinalVer2.ino).  With N = 2 and raw samples 1, 1, 1, 1 the
code emits the values 1 and then 2, while the mean of the third and
fourth samples is 1. -/
theorem c1_avg_second_emission_wrong :
    (Solar.runReadData true 2 Solar.initAvg [1, 1, 1, 1]).2 = [1, 2] ∧
    Solar.listMean [1, 1] = 1 ∧ (2 : Rat) ≠ 1 := by
  refine ⟨?_, ?_, by norm_num⟩
  · norm_num [Solar.runReadData, Solar.ReadDataStep, Solar.initAvg]
  · norm_num [Solar.listMean]

/-- C2: after an emitted averaged reading the code resets only `counter`;
`averagedcurrent_mA` keeps the whole running total.  With N = 2 and raw
samples 1, 1, the state after the emission is
{averagedcurrent_mA = 2, counter = 0}, not {0, 0} as the spec requires. -/
theorem c2_running_total_not_reset :
    (Solar.runReadData true 2 Solar.initAvg [1, 1]).1 =
      ⟨2, 0⟩ ∧ (2 : Rat) ≠ 0 := by
  refine ⟨?_, by norm_num⟩
  norm_num [Solar.runReadData, Solar.ReadDataStep, Solar.initAvg]

theorem setupHeader_snd_of_ne (g : String) (h : g.length ≠ 0) :
    (Solar.setupHeader g).2 = false := by
  unfold Solar.setupHeader
  simp [if_neg h]

/-- C3: the header row is written iff the file is empty at open time, and
a re-run of `setup` against the resulting file (with any rows appended
afterwards) never writes the header a second time. -/
theorem c3_header_iff_empty (f rows : String) :
    ((Solar.setupHeader f).2 = true ↔ f = "") ∧
    (Solar.setupHeader ((Solar.setupHeader f).1 ++ rows)).2 = false := by
  have hlen : Solar.headerLine.length = 20 := by decide
  have hfst : (Solar.setupHeader f).1.length ≠ 0 := by
    unfold Solar.setupHeader
    by_cases h : f.length = 0
    · simp only [if_pos h, String.length_append, hlen]
      omega
    · simpa [if_neg h] using h
  have hsecond : ((Solar.setupHeader f).1 ++ rows).length ≠ 0 := by
    simp only [String.length_append]
    omega
  refine ⟨?_, ?_⟩
  · unfold Solar.setupHeader
    by_cases h : f.length = 0
    · have hf : f = "" := by
        cases f with
        | mk data =>
          simp only [String.length] at h
          simp [List.length_eq_zero.mp h]
      simp [if_pos h, hf]
    · have hf : ¬ f = "" := by
        intro hc; subst hc; exact h rfl
      simp [if_neg h, hf]
  · exact setupHeader_snd_of_ne _ hsecond

/-- C4: for every valid clock date (year 1000–9999, month 1–12, day
1–31), the generated filename is twelve characters: eight ASCII digits
whose decimal value is the zero-padded `YYYYMMDD` number of the date,
followed by the fixed extension `.csv`. -/
theorem c4_filename_yyyymmdd (y m d : Nat)
    (hy1 : 1000 ≤ y) (hy2 : y ≤ 9999) (hm1 : 1 ≤ m) (hm2 : m ≤ 12)
    (hd1 : 1 ≤ d) (hd2 : d ≤ 31) :
    (Solar.mkFilename y m d).data = Solar.mkFilenameChars y m d ∧
    (Solar.mkFilenameChars y m d).length = 12 ∧
    ((Solar.mkFilenameChars y m d).take 8).all Char.isDigit = true ∧
    Solar.digitsVal ((Solar.mkFilenameChars y m d).take 8) =
      y * 10000 + m * 100 + d ∧
    (Solar.mkFilenameChars y m d).drop 8 = ['.', 'c', 's', 'v'] := by
  have b0 : y / 1000 ≤ 9 := by omega
  have b1 : y / 100 % 10 ≤ 9 := by omega
  have b2 : y / 10 % 10 ≤ 9 := by omega
  have b3 : y % 10 ≤ 9 := by omega
  have b4 : m / 10 % 10 ≤ 9 := by omega
  have b5 : m % 10 ≤ 9 := by omega
  have b6 : d / 10 % 10 ≤ 9 := by omega
  have b7 : d % 10 ≤ 9 := by omega
  refine ⟨rfl, rfl, ?_, ?_, rfl⟩
  · simp [Solar.mkFilenameChars, (Solar.digitChar_spec _ b0).2,
      (Solar.digitChar_spec _ b1).2, (Solar.digitChar_spec _ b2).2,
      (Solar.digitChar_spec _ b3).2, (Solar.digitChar_spec _ b4).2,
      (Solar.digitChar_spec _ b5).2, (Solar.digitChar_spec _ b6).2,
      (Solar.digitChar_spec _ b7).2]
  · simp only [Solar.mkFilenameChars, List.take, Solar.digitsVal, List.foldl,
      (Solar.digitChar_spec _ b0).1, (Solar.digitChar_spec _ b1).1,
      (Solar.digitChar_spec _ b2).1, (Solar.digitChar_spec _ b3).1,
      (Solar.digitChar_spec _ b4).1, (Solar.digitChar_spec _ b5).1,
      (Solar.digitChar_spec _ b6).1, (Solar.digitChar_spec _ b7).1]
    omega

/-- Witness for C4 at the date 2024-05-09 (the filename is
`20240509.csv`). -/
theorem c4_filename_yyyymmdd_witness :
    Solar.mkFilename 2024 5 9 = "20240509.csv" ∧
    ((Solar.mkFilename 2024 5 9).data = Solar.mkFilenameChars 2024 5 9 ∧
     (Solar.mkFilenameChars 2024 5 9).length = 12 ∧
     ((Solar.mkFilenameChars 2024 5 9).take 8).all Char.isDigit = true ∧
     Solar.digitsVal ((Solar.mkFilenameChars 2024 5 9).take 8) =
       2024 * 10000 + 5 * 100 + 9 ∧
     (Solar.mkFilenameChars 2024 5 9).drop 8 = ['.', 'c', 's', 'v']) :=
  ⟨by decide,
   c4_filename_yyyymmdd 2024 5 9 (by decide) (by decide) (by decide)
     (by decide) (by decide) (by decide)⟩

namespace Solar

/-! ## Whole-sketch model: environment, `setup`, and the data rows the
`loop` appends -/

/-- The hardware environment a power cycle runs against: presence of the
peripherals, the RTC date at startup, and the sensor/clock streams
(sample `i` and its timestamp as hour, minute, second). -/
structure Env where
  rtcDetected : Bool
  rtcRunning : Bool
  sdDetected : Bool
  inaDetected : Bool
  year : Nat
  month : Nat
  day : Nat
  samples : Nat → Rat
  times : Nat → Nat × Nat × Nat

/-- Observable outcome of `setup`: whether it fell into one of the
`while (1)` halt loops, the diagnostic lines printed, the resulting
contents of the dated file, whether `SD.open` was reached (which creates
the file), the final `filename`, and how many times `rtc.adjust` ran. -/
structure SetupResult where
  halted : Bool
  serial : List String
  fileContents : String
  fileCreated : Bool
  filename : String
  adjusts : Nat
  led : Bool
deriving DecidableEq, Repr

/-- Model of `setup` in `SolarFinalVer2.ino` (lines 37–115).  Check order: RTC
presence, RTC running (adjust-and-continue), SD card, filename
generation, file creation and header, INA219 sensor. -/
def setupV2 (env : Env) (init : String) : SetupResult :=
  if !env.rtcDetected then
    { halted := true
      serial := ["Error : RTC not detected!",
                 "Attach the RTC, then push the reset button"]
      fileContents := init, fileCreated := false
      filename := "YYYYMMDD.csv", adjusts := 0, led := false }
  else
    let s1 := ["RTC detected!"]
    let s2 := s1 ++ (if !env.rtcRunning then
        ["Error : RTC lost power!",
         "RTC will be set to when this sketch was compiled"]
      else ["RTC OK!"])
    let adj : Nat := if !env.rtcRunning then 1 else 0
    if !env.sdDetected then
      { halted := true
        serial := s2 ++ ["Error : SD card not detected!",
                         "Attach the SD card, then push the reset button"]
        fileContents := init, fileCreated := false
        filename := "YYYYMMDD.csv", adjusts := adj, led := false }
    else
      let s3 := s2 ++ ["SD card detected!"]
      let fn := mkFilename env.year env.month env.day
      let f1 := (setupHeader init).1
      let s4 := s3 ++ ["SD card OK!"]
      if !env.inaDetected then
        { halted := true
          serial := s4 ++ ["Error : INA219 not connected!",
                           "Connect the INA219, then push the reset button"]
          fileContents := f1, fileCreated := true
          filename := fn, adjusts := adj, led := false }
      else
        { halted := false
          serial := s4 ++ ["INA219 detected!", "All checks OK!",
                           "Data will be stored into ", fn, ""]
          fileContents := f1, fileCreated := true
          filename := fn, adjusts := adj, led := false }

/-- Model of `setup` in `solardatalog.ino` (lines 34–119).  Check order: INA219
sensor first, then RTC presence, RTC running (adjust then halt), SD
card, filename generation, file creation and header.  Every failure also
drives the LED pin high. -/
def setupSD (env : Env) (init : String) : SetupResult :=
  if !env.inaDetected then
    { halted := true
      serial := ["Error : INA219 not connected!",
                 "Connect the INA219, then push the reset button"]
      fileContents := init, fileCreated := false
      filename := "YYYYMMDD.csv", adjusts := 0, led := true }
  else
    let s1 := ["INA219 detected!"]
    if !env.rtcDetected then
      { halted := true
        serial := s1 ++ ["Error : RTC not detected!",
                         "Attach the RTC, then push the reset button"]
        fileContents := init, fileCreated := false
        filename := "YYYYMMDD.csv", adjusts := 0, led := true }
    else
      let s2 := s1 ++ ["RTC detected!"]
      if !env.rtcRunning then
        { halted := true
          serial := s2 ++ ["Error : RTC lost power!",
                           "RTC will be set to when this sketch was compiled"]
          fileContents := init, fileCreated := false
          filename := "YYYYMMDD.csv", adjusts := 1, led := true }
      else
        let s3 := s2 ++ ["RTC OK!"]
        if !env.sdDetected then
          { halted := true
            serial := s3 ++ ["Error : SD card not detected!",
                             "Attach the SD card, then push the reset button"]
            fileContents := init, fileCreated := false
            filename := "YYYYMMDD.csv", adjusts := 0, led := true }
        else
          let s4 := s3 ++ ["SD card detected!"]
          let fn := mkFilename env.year env.month env.day
          let f1 := (setupHeader init).1
          { halted := false
            serial := s4 ++ ["SD card OK!", "All checks OK!",
                             "Data will be stored into ", fn, ""]
            fileContents := f1, fileCreated := true
            filename := fn, adjusts := 0, led := false }

/-- One data row appended by `StoreData`: the timestamp fetched from the
RTC and the value written. -/
structure Reading where
  hour : Nat
  minute : Nat
  second : Nat
  current_mA : Rat
deriving DecidableEq, Repr

/-- Data rows appended by `n` iterations of `loop` in
`SolarFinalVer2.ino` (lines 118–134), starting at sample index `i`:
each iteration opens the file, calls `ReadData` (which calls `StoreData`
when a value is emitted), and closes the file. -/
def loopRowsV2 (env : Env) (averaged : Bool) (datapoints : Nat) :
    AvgState → Nat → Nat → List Reading
  | _, _, 0 => []
  | st, i, n + 1 =>
    let (st1, out) := ReadDataStep averaged datapoints st (env.samples i)
    (match out with
     | some v => [⟨(env.times i).1, (env.times i).2.1, (env.times i).2.2, v⟩]
     | none => []) ++ loopRowsV2 env averaged datapoints st1 (i + 1) n

/-- Data rows appended by `n` iterations of `loop` in `solardatalog.ino`
(lines 122–152): each iteration first re-checks the sensor and the SD
card and halts (appending nothing further) if either is gone, otherwise
stores one row per iteration (no averaging in this variant). -/
def loopRowsSD (env : Env) : Nat → Nat → List Reading
  | _, 0 => []
  | i, n + 1 =>
    if env.inaDetected && env.sdDetected then
      ⟨(env.times i).1, (env.times i).2.1, (env.times i).2.2, env.samples i⟩
        :: loopRowsSD env (i + 1) n
    else []

/-- Data rows appended during a whole power cycle of `SolarFinalVer2`
(`setup` then `n` iterations of `loop`): if `setup` halted in a
`while (1)` loop, `loop` never runs. -/
def systemRowsV2 (env : Env) (averaged : Bool) (datapoints : Nat)
    (init : String) (n : Nat) : List Reading :=
  if (setupV2 env init).halted then []
  else loopRowsV2 env averaged datapoints initAvg 0 n

/-- Data rows appended during a whole power cycle of `solardatalog`. -/
def systemRowsSD (env : Env) (init : String) (n : Nat) : List Reading :=
  if (setupSD env init).halted then [] else loopRowsSD env 0 n

end Solar

/-- C5: if the INA219 presence check fails at startup (with the other
peripherals present, so that control reaches that check in both
variants), `setup` enters the halt state having printed the diagnostic,
and no data row is appended during the whole power cycle, in either
sketch. -/
theorem c5_sensor_fail_halts (env : Solar.Env) (averaged : Bool)
    (datapoints : Nat) (init : String) (n : Nat)
    (hrtc : env.rtcDetected = true) (hsd : env.sdDetected = true)
    (hina : env.inaDetected = false) :
    ((Solar.setupV2 env init).halted = true ∧
     "Error : INA219 not connected!" ∈ (Solar.setupV2 env init).serial ∧
     Solar.systemRowsV2 env averaged datapoints init n = []) ∧
    ((Solar.setupSD env init).halted = true ∧
     "Error : INA219 not connected!" ∈ (Solar.setupSD env init).serial ∧
     Solar.systemRowsSD env init n = []) := by
  cases h : env.rtcRunning <;>
    simp [Solar.setupV2, Solar.setupSD, Solar.systemRowsV2,
      Solar.systemRowsSD, hrtc, hsd, hina, h]

/-- Environment with every peripheral present except the INA219 sensor. -/
def envFailINA : Solar.Env :=
  ⟨true, true, true, false, 2024, 5, 9, fun _ => 0, fun _ => (0, 0, 0)⟩

/-- Witness for C5: a concrete sensor-absent environment. -/
theorem c5_sensor_fail_halts_witness :
    envFailINA.rtcDetected = true ∧ envFailINA.sdDetected = true ∧
    envFailINA.inaDetected = false ∧
    (((Solar.setupV2 envFailINA Solar.emptyFile).halted = true ∧
      "Error : INA219 not connected!" ∈ (Solar.setupV2 envFailINA Solar.emptyFile).serial ∧
      Solar.systemRowsV2 envFailINA false 10 Solar.emptyFile 3 = []) ∧
     ((Solar.setupSD envFailINA Solar.emptyFile).halted = true ∧
      "Error : INA219 not connected!" ∈ (Solar.setupSD envFailINA Solar.emptyFile).serial ∧
      Solar.systemRowsSD envFailINA Solar.emptyFile 3 = [])) :=
  ⟨rfl, rfl, rfl, c5_sensor_fail_halts envFailINA false 10 Solar.emptyFile 3 rfl rfl rfl⟩

/-- C6: if the RTC is present but reports a power-lost (not running)
state, both sketches call `rtc.adjust` exactly once with the build-time
date; `SolarFinalVer2` then continues to the logger loop (not halted),
while `solardatalog` halts pending a manual reset. -/
theorem c6_clock_lost_policies (env : Solar.Env) (init : String)
    (hr : env.rtcDetected = true) (hrun : env.rtcRunning = false)
    (hsd : env.sdDetected = true) (hina : env.inaDetected = true) :
    (Solar.setupV2 env init).adjusts = 1 ∧
    (Solar.setupV2 env init).halted = false ∧
    (Solar.setupSD env init).adjusts = 1 ∧
    (Solar.setupSD env init).halted = true := by
  simp [Solar.setupV2, Solar.setupSD, hr, hrun, hsd, hina]

/-- Environment whose RTC is attached but lost power. -/
def envClockLost : Solar.Env :=
  ⟨true, false, true, true, 2024, 5, 9, fun _ => 0, fun _ => (0, 0, 0)⟩

/-- Witness for C6: a concrete clock-lost environment. -/
theorem c6_clock_lost_policies_witness :
    envClockLost.rtcDetected = true ∧ envClockLost.rtcRunning = false ∧
    envClockLost.sdDetected = true ∧ envClockLost.inaDetected = true ∧
    ((Solar.setupV2 envClockLost Solar.emptyFile).adjusts = 1 ∧
     (Solar.setupV2 envClockLost Solar.emptyFile).halted = false ∧
     (Solar.setupSD envClockLost Solar.emptyFile).adjusts = 1 ∧
     (Solar.setupSD envClockLost Solar.emptyFile).halted = true) :=
  ⟨rfl, rfl, rfl, rfl,
   c6_clock_lost_policies envClockLost Solar.emptyFile rfl rfl rfl rfl⟩

/-- C10: in `SolarFinalVer2`, the file is created and the header written
before the INA219 check, so a sensor-absent startup halts with the dated
file already created and (when it started empty) already holding the
header row. -/
theorem c10_header_written_before_sensor_check (env : Solar.Env)
    (hr : env.rtcDetected = true) (hsd : env.sdDetected = true)
    (hina : env.inaDetected = false) :
    (Solar.setupV2 env Solar.emptyFile).halted = true ∧
    (Solar.setupV2 env Solar.emptyFile).fileCreated = true ∧
    (Solar.setupV2 env Solar.emptyFile).fileContents = Solar.headerLine ∧
    (Solar.setupV2 env Solar.emptyFile).filename =
      Solar.mkFilename env.year env.month env.day := by
  cases h : env.rtcRunning <;>
    simp [Solar.setupV2, Solar.setupHeader, Solar.emptyFile, hr, hsd, hina, h]

/-- Witness for C10: the same concrete sensor-absent environment. -/
theorem c10_header_written_before_sensor_check_witness :
    envFailINA.rtcDetected = true ∧ envFailINA.sdDetected = true ∧
    envFailINA.inaDetected = false ∧
    ((Solar.setupV2 envFailINA Solar.emptyFile).halted = true ∧
     (Solar.setupV2 envFailINA Solar.emptyFile).fileCreated = true ∧
     (Solar.setupV2 envFailINA Solar.emptyFile).fileContents = Solar.headerLine ∧
     (Solar.setupV2 envFailINA Solar.emptyFile).filename =
       Solar.mkFilename envFailINA.year envFailINA.month envFailINA.day) :=
  ⟨rfl, rfl, rfl,
   c10_header_written_before_sensor_check envFailINA rfl rfl rfl⟩

namespace Solar

/-! ## `StoreData` and the event-level view of `loop` -/

/-- The timestamp string built by `StoreData` (identical in both
sketches): `String(now.hour())`, `.concat(":")`, the minute, `":"`,
the second — `String(Nat)` never zero-pads. -/
def timeString (h m s : Nat) : String :=
  let t0 := toString h
  let t1 := t0 ++ ":"
  let t2 := t1 ++ toString m
  let t3 := t2 ++ ":"
  t3 ++ toString s

/-- One observable action of `loop`: LED writes, file opening with
`FILE_WRITE` (append mode), file writes, file closing, blocking
`delay(ms)`, a sensor acquisition, or a serial diagnostic line. -/
inductive Ev where
  | led : Bool → Ev
  | openAppend : Ev
  | write : String → Ev
  | closeFile : Ev
  | delayMs : Nat → Ev
  | sensorRead : Ev
  | serialMsg : String → Ev
deriving DecidableEq, Repr

/-- The actions of one `StoreData` call (SolarFinalVer2 lines 167–194,
solardatalog lines 170–197), in source order; the rendering of the float
by `file.print(currentvalue)` is abstracted as the string `v`, and
`file.println()` writes CR LF. -/
def storeDataEvents (h m s : Nat) (v : String) : List Ev :=
  [.serialMsg ("At " ++ timeString h m s),
   .serialMsg ("Current[mA]: " ++ v),
   .write (timeString h m s), .write (","),
   .write v, .write (","),
   .serialMsg ("Data stored!"), .serialMsg (""),
   .write ("\r\n")]

/-- The strings written to the file by a list of actions, in order. -/
def writesOf (evs : List Ev) : List String :=
  evs.filterMap fun e => match e with | .write s => some s | _ => none

/-- The strings passed to the successive `file.print`/`file.println`
calls of one `StoreData` call. -/
def storeDataWrites (h m s : Nat) (v : String) : List String :=
  writesOf (storeDataEvents h m s v)

/-- Appending a sequence of writes to file contents (the file is in
append mode). -/
def appendWrites (f : String) (ws : List String) : String :=
  ws.foldl (fun a w => a ++ w) f

end Solar

/-- C7: one `StoreData` call appends to the file exactly the bytes
`<H:M:S>,<value>,` followed by the CR LF line terminator, where the
timestamp uses colon separators and no zero padding (e.g. the time
09:05:03 is rendered `9:5:3`). -/
theorem c7_row_format (f : String) (h m s : Nat) (v : String) :
    Solar.appendWrites f (Solar.storeDataWrites h m s v) =
      f ++ (toString h ++ ":" ++ toString m ++ ":" ++ toString s
        ++ "," ++ v ++ ",") ++ "\r\n" ∧
    Solar.timeString 9 5 3 = "9:5:3" := by
  constructor
  · simp [Solar.appendWrites, Solar.storeDataWrites, Solar.writesOf,
      Solar.storeDataEvents, Solar.timeString, String.append_assoc]
  · rfl

namespace Solar

/-- Scoping constraints on a list of actions given the open/closed state
of the file handle: the file is only opened when closed and closed when
open (each iteration has a single `SD.open` / `file.close()` pair),
writes happen only while the handle is open, and blocking delays happen
only while it is closed. -/
def okScoped : Bool → List Ev → Bool
  | _, [] => true
  | b, Ev.openAppend :: r => !b && okScoped true r
  | b, Ev.closeFile :: r => b && okScoped false r
  | b, Ev.write _ :: r => b && okScoped b r
  | b, Ev.delayMs _ :: r => !b && okScoped b r
  | b, Ev.led _ :: r => okScoped b r
  | b, Ev.sensorRead :: r => okScoped b r
  | b, Ev.serialMsg _ :: r => okScoped b r

/-- Effect of one action on the open/closed state of the file handle. -/
def evStep (b : Bool) (e : Ev) : Bool :=
  match e with
  | Ev.openAppend => true
  | Ev.closeFile => false
  | _ => b

/-- Open/closed state of the file handle after a list of actions. -/
def endState (b : Bool) (evs : List Ev) : Bool := evs.foldl evStep b

/-- A well-scoped iteration: starting closed, the scoping constraints
hold throughout and the handle is closed again at the end (so it is
never held open into the idle wait or the next iteration). -/
def wellScoped (evs : List Ev) : Bool :=
  okScoped false evs && !(endState false evs)

theorem okScoped_append (xs ys : List Ev) (b : Bool) :
    okScoped b (xs ++ ys) =
      (okScoped b xs && okScoped (endState b xs) ys) := by
  induction xs generalizing b with
  | nil => simp [okScoped, endState]
  | cons e r ih =>
    cases e <;> simp [okScoped, endState, evStep, List.foldl_cons, ih] <;>
      by_cases hb : b <;> simp [hb, ih]

theorem endState_append (xs ys : List Ev) (b : Bool) :
    endState b (xs ++ ys) = endState (endState b xs) ys := by
  simp [endState, List.foldl_append]

/-- The argument of `delay(frequency * 500)` in `SolarFinalVer2.ino`
(lines 131 and 133): the product is computed in the Uno's 16-bit signed
`int`, then converted to `delay`'s 32-bit `unsigned long`. -/
def delayArgV2 (freq : Nat) : Nat :=
  if (freq * 500) % 2 ^ 16 < 2 ^ 15 then (freq * 500) % 2 ^ 16
  else 2 ^ 32 - (2 ^ 16 - (freq * 500) % 2 ^ 16)

/-- One iteration of `loop` in `SolarFinalVer2.ino` (lines 118–134) as a
list of actions: LED on, open the file with `FILE_WRITE`, `ReadData`
(one sensor acquisition, then `StoreData` when a value is emitted),
close the file, then `delay(frequency*500)`, LED off,
`delay(frequency*500)`. -/
def loopBodyEventsV2 (averaged : Bool) (datapoints : Nat) (st : AvgState)
    (sample : Rat) (h m s : Nat) (v : String) (freq : Nat) : List Ev :=
  [.led true, .openAppend, .sensorRead] ++
  (match (ReadDataStep averaged datapoints st sample).2 with
   | some _ => storeDataEvents h m s v
   | none => []) ++
  [.closeFile, .delayMs (delayArgV2 freq), .led false,
   .delayMs (delayArgV2 freq)]

/-- One pass of the LED-blink `for` loop body in `solardatalog.ino`
(lines 146–151): LED on, `delay((frequency/frequency)*1000)`, LED off,
the same delay again. -/
def blinkSegSD (freq : Nat) : List Ev :=
  [.led true, .delayMs ((freq / freq) * 1000), .led false,
   .delayMs ((freq / freq) * 1000)]

/-- The whole blink `for` loop: `frequency / 2` passes. -/
def blinkEventsSD (freq : Nat) : List Ev :=
  (List.replicate (freq / 2) (blinkSegSD freq)).flatten

/-- One iteration of `loop` in `solardatalog.ino` (lines 122–152) when
the per-iteration sensor and SD re-checks pass: open the file with
`FILE_WRITE`, `ReadData` (sensor acquisition then an unconditional
`StoreData`), close the file, then the blink loop. -/
def loopBodyEventsSD (h m s : Nat) (v : String) (freq : Nat) : List Ev :=
  [.openAppend, .sensorRead] ++ storeDataEvents h m s v ++ [.closeFile] ++
    blinkEventsSD freq

/-- Total of the blocking delays (in milliseconds) in a list of actions. -/
def delaySum (evs : List Ev) : Nat :=
  (evs.filterMap fun e =>
    match e with | Ev.delayMs n => some n | _ => none).sum

end Solar

namespace Solar

theorem delaySum_append (xs ys : List Ev) :
    delaySum (xs ++ ys) = delaySum xs + delaySum ys := by
  simp [delaySum, List.filterMap_append]

theorem blinkN_props (ms n : Nat) :
    okScoped false
      ((List.replicate n
        [Ev.led true, Ev.delayMs ms, Ev.led false, Ev.delayMs ms]).flatten) =
      true ∧
    endState false
      ((List.replicate n
        [Ev.led true, Ev.delayMs ms, Ev.led false, Ev.delayMs ms]).flatten) =
      false ∧
    delaySum
      ((List.replicate n
        [Ev.led true, Ev.delayMs ms, Ev.led false, Ev.delayMs ms]).flatten) =
      n * (2 * ms) ∧
    ((List.replicate n
        [Ev.led true, Ev.delayMs ms, Ev.led false, Ev.delayMs ms]).flatten).count
        Ev.openAppend = 0 ∧
    ((List.replicate n
        [Ev.led true, Ev.delayMs ms, Ev.led false, Ev.delayMs ms]).flatten).count
        Ev.closeFile = 0 := by
  induction n with
  | zero => simp [okScoped, endState, delaySum]
  | succ k ih =>
    obtain ⟨h1, h2, h3, h4, h5⟩ := ih
    refine ⟨?_, ?_, ?_, ?_, ?_⟩
    · simp [List.replicate_succ, okScoped, h1]
    · simpa [List.replicate_succ, endState, evStep] using h2
    · simp only [List.replicate_succ, List.flatten_cons]
      rw [delaySum_append, h3]
      have hseg : delaySum
          [Ev.led true, Ev.delayMs ms, Ev.led false, Ev.delayMs ms] =
            ms + ms := rfl
      rw [hseg]; ring
    · simp [List.replicate_succ, List.count_cons, h4]
    · simp [List.replicate_succ, List.count_cons, h5]

theorem delayArgV2_eq (freq : Nat) (h65 : freq ≤ 65) :
    delayArgV2 freq = freq * 500 := by
  have hlt2 : freq * 500 < 2 ^ 16 := by omega
  have hlt : freq * 500 % 2 ^ 16 < 2 ^ 15 := by
    rw [Nat.mod_eq_of_lt hlt2]; omega
  simp only [delayArgV2, Nat.mod_eq_of_lt hlt2]
  rw [if_pos (show freq * 500 < 2 ^ 15 by omega)]

end Solar

/-- C8: in every iteration of `loop`, in both sketches, the file is
opened (in append mode, `FILE_WRITE`) exactly once and closed exactly
once; starting from a closed handle, every file write happens while the
handle is open, every blocking delay happens while it is closed, and the
handle is closed again at the end of the iteration — so it is never held
open across the idle wait or across iterations. -/
theorem c8_file_scoped_per_iteration (averaged : Bool) (datapoints : Nat)
    (st : Solar.AvgState) (sample : Rat) (h m s : Nat) (v : String)
    (freq : Nat) :
    (Solar.wellScoped
        (Solar.loopBodyEventsV2 averaged datapoints st sample h m s v freq) =
        true ∧
     (Solar.loopBodyEventsV2 averaged datapoints st sample h m s v freq).count
        Solar.Ev.openAppend = 1 ∧
     (Solar.loopBodyEventsV2 averaged datapoints st sample h m s v freq).count
        Solar.Ev.closeFile = 1) ∧
    (Solar.wellScoped (Solar.loopBodyEventsSD h m s v freq) = true ∧
     (Solar.loopBodyEventsSD h m s v freq).count Solar.Ev.openAppend = 1 ∧
     (Solar.loopBodyEventsSD h m s v freq).count Solar.Ev.closeFile = 1) := by
  obtain ⟨b1, b2, b3, b4, b5⟩ :=
    Solar.blinkN_props ((freq / freq) * 1000) (freq / 2)
  constructor
  · rcases hrd : (Solar.ReadDataStep averaged datapoints st sample).2
      with _ | v' <;>
      simp [Solar.loopBodyEventsV2, hrd, Solar.wellScoped, Solar.okScoped,
        Solar.endState, Solar.evStep, Solar.storeDataEvents, List.count_cons]
  · refine ⟨?_, ?_, ?_⟩
    · have hok : Solar.okScoped false (Solar.loopBodyEventsSD h m s v freq) =
          Solar.okScoped false
            ((List.replicate (freq / 2)
              [Solar.Ev.led true, Solar.Ev.delayMs ((freq / freq) * 1000),
               Solar.Ev.led false,
               Solar.Ev.delayMs ((freq / freq) * 1000)]).flatten) := by
        simp [Solar.loopBodyEventsSD, Solar.blinkEventsSD, Solar.blinkSegSD,
          Solar.storeDataEvents, Solar.okScoped, Solar.okScoped_append,
          Solar.endState, Solar.evStep]
      simp [Solar.wellScoped, hok, b1]
      simpa [Solar.loopBodyEventsSD, Solar.blinkEventsSD, Solar.blinkSegSD,
        Solar.storeDataEvents, Solar.endState, Solar.endState_append,
        Solar.evStep] using b2
    · simp [Solar.loopBodyEventsSD, Solar.blinkEventsSD, Solar.blinkSegSD,
        Solar.storeDataEvents, List.count_cons, List.count_append, b4]
    · simp [Solar.loopBodyEventsSD, Solar.blinkEventsSD, Solar.blinkSegSD,
        Solar.storeDataEvents, List.count_cons, List.count_append, b5]

/-- C9 (counterexample): the claim fails at concrete inputs in both
sketches.  With `frequency = 5`, the delays in one `loop` iteration of
`solardatalog.ino` sum to 4000 ms, not `frequency * 1000 = 5000` ms (the
blink loop runs `5 / 2 = 2` passes of 2 × 1000 ms).  And with
`frequency = 66` in `SolarFinalVer2.ino`, `frequency * 500 = 33000`
overflows the Uno's 16-bit `int` to −32536, which `delay`'s
`unsigned long` parameter receives as 4294934760, so the two delays sum
to 8589869520 ms, not `66 * 1000` ms. -/
theorem c9_delay_sum_claim_false :
    (Solar.delaySum (Solar.loopBodyEventsSD 12 0 0 ("0.00") 5) = 4000 ∧
     (4000 : Nat) ≠ 5 * 1000) ∧
    (Solar.delaySum
        (Solar.loopBodyEventsV2 false 10 Solar.initAvg 0 9 5 3 ("0.00") 66) =
        8589869520 ∧
     (8589869520 : Nat) ≠ 66 * 1000) := by
  exact ⟨⟨rfl, by decide⟩, ⟨rfl, by decide⟩⟩

/-- C9 (amended): for every positive `frequency`: in `SolarFinalVer2`
the blocking delays in one `loop` iteration sum to `frequency * 1000` ms
provided `frequency ≤ 65` (so that `frequency * 500` fits the Uno's
16-bit `int`); in `solardatalog` they sum to `2000 * (frequency / 2)`
ms, which equals `frequency * 1000` ms exactly when `frequency` is even
(as that sketch's comment requires). -/
theorem c9_delay_sum_amended (averaged : Bool) (datapoints : Nat)
    (st : Solar.AvgState) (sample : Rat) (h m s : Nat) (v : String)
    (freq : Nat) (hpos : 0 < freq) :
    (freq ≤ 65 →
      Solar.delaySum
        (Solar.loopBodyEventsV2 averaged datapoints st sample h m s v freq) =
        freq * 1000) ∧
    Solar.delaySum (Solar.loopBodyEventsSD h m s v freq) =
      2000 * (freq / 2) ∧
    (Solar.delaySum (Solar.loopBodyEventsSD h m s v freq) = freq * 1000 ↔
      freq % 2 = 0) := by
  have hff : freq / freq = 1 := Nat.div_self hpos
  obtain ⟨b1, b2, b3, b4, b5⟩ :=
    Solar.blinkN_props ((freq / freq) * 1000) (freq / 2)
  have hsd : Solar.delaySum (Solar.loopBodyEventsSD h m s v freq) =
      2000 * (freq / 2) := by
    have hpre : Solar.delaySum ([Solar.Ev.openAppend, Solar.Ev.sensorRead] ++
        Solar.storeDataEvents h m s v ++ [Solar.Ev.closeFile]) = 0 := rfl
    have hsplit : Solar.delaySum (Solar.loopBodyEventsSD h m s v freq) =
        Solar.delaySum (Solar.blinkEventsSD freq) := by
      rw [Solar.loopBodyEventsSD, Solar.delaySum_append, hpre]
      omega
    rw [hsplit]
    rw [show Solar.blinkEventsSD freq =
      (List.replicate (freq / 2)
        [Solar.Ev.led true, Solar.Ev.delayMs ((freq / freq) * 1000),
         Solar.Ev.led false,
         Solar.Ev.delayMs ((freq / freq) * 1000)]).flatten from rfl]
    rw [b3, hff]
    omega
  refine ⟨?_, hsd, ?_⟩
  · intro h65
    have harg := Solar.delayArgV2_eq freq h65
    rcases hrd : (Solar.ReadDataStep averaged datapoints st sample).2
      with _ | v' <;>
      simp [Solar.loopBodyEventsV2, hrd, Solar.delaySum,
        Solar.storeDataEvents, harg] <;> omega
  · rw [hsd]
    omega

/-- Witness for the amended C9 at `frequency = 20` (the `solardatalog`
default, even and below the 16-bit bound). -/
theorem c9_delay_sum_amended_witness :
    0 < 20 ∧
    ((20 ≤ 65 →
       Solar.delaySum
         (Solar.loopBodyEventsV2 false 10 Solar.initAvg 0 9 5 3 ("0.00") 20) =
         20 * 1000) ∧
     Solar.delaySum (Solar.loopBodyEventsSD 9 5 3 ("0.00") 20) =
       2000 * (20 / 2) ∧
     (Solar.delaySum (Solar.loopBodyEventsSD 9 5 3 ("0.00") 20) = 20 * 1000 ↔
       20 % 2 = 0)) :=
  ⟨by decide,
   c9_delay_sum_amended false 10 Solar.initAvg 0 9 5 3 ("0.00") 20 (by decide)⟩
